import Mathlib

/-
Verification of the method/interface semantics demonstrated by the
`methods` package (files methods-introduction.go and methods-interfaces.go).

Modelling choices:
* Go `float64` is modelled by the real numbers `ℝ`; `math.Sqrt` by `Real.sqrt`.
* A pointer `*T` is an address into a store `Nat → T`; a possibly-nil pointer
  is `Option Nat` (`none` = nil).
* A Go method receiver is either a private copy of the argument (value
  receiver) or an address into the store (pointer receiver).  The body of the
  two `Scale` variants is the same two-assignment sequence from the source;
  only the receiver kind differs, exactly as in the Go file.
* An interface value is `Option` of a sum of the concrete types stored into
  it by the demo; `none` is the wholly-nil interface (no value, no type tag).
  Dispatch on `none` is a run-time fault, modelled by an `Option` result.
* Console output is modelled by returning the list of printed lines.
-/

noncomputable section

/-- The struct `Vertex { X, Y float64 }` from methods-introduction.go. -/
@[ext]
structure Vertex where
  X : ℝ
  Y : ℝ

/-- `func (v Vertex) Absolute() float64` — Euclidean norm, value receiver. -/
def Vertex.Absolute (v : Vertex) : ℝ :=
  Real.sqrt (v.X * v.X + v.Y * v.Y)

/-- `func AbsoluteFunction(v Vertex) float64` — the same body as a plain function. -/
def AbsoluteFunction (v : Vertex) : ℝ :=
  Real.sqrt (v.X * v.X + v.Y * v.Y)

/-- A store of heap-allocated `Vertex` cells, addressed by `Nat`. -/
abbrev VStore := Nat → Vertex

/-- A Go receiver for a `Vertex` method: a value receiver gets a private
mutable copy, a pointer receiver gets an address into the store. -/
inductive VReceiver where
  | copy (v : Vertex)
  | ref (a : Nat)

/-- Reading the receiver (`v.X`, `v.Y` on the right-hand side). -/
def VReceiver.read (σ : VStore) : VReceiver → Vertex
  | .copy v => v
  | .ref a => σ a

/-- Writing the receiver (`v.X = ...`): a copy receiver updates only the
local copy, a pointer receiver updates the store cell it points to. -/
def VReceiver.write (σ : VStore) (r : VReceiver) (v : Vertex) : VStore × VReceiver :=
  match r with
  | .copy _ => (σ, .copy v)
  | .ref a => (Function.update σ a v, .ref a)

/-- The shared body of both `Scale` variants, translated statement by
statement: `v.X = v.X * f` then `v.Y = v.Y * f`. -/
def scaleBody (f : ℝ) (σ : VStore) (r : VReceiver) : VStore × VReceiver :=
  let v0 := r.read σ
  let s1 := VReceiver.write σ r { v0 with X := v0.X * f }
  let v1 := s1.2.read s1.1
  VReceiver.write s1.1 s1.2 { v1 with Y := v1.Y * f }

/-- `func (v Vertex) ScaleWithValue(f float64)` called on the variable stored
at address `a`: the body runs on a private copy of `σ a`; the resulting store
is what the caller observes afterwards. -/
def Vertex.ScaleWithValue (σ : VStore) (a : Nat) (f : ℝ) : VStore :=
  (scaleBody f σ (VReceiver.copy (σ a))).1

/-- `func (v *Vertex) ScaleWithPointer(f float64)` called with the address
`a`: the body runs on the store cell itself. -/
def Vertex.ScaleWithPointer (σ : VStore) (a : Nat) (f : ℝ) : VStore :=
  (scaleBody f σ (VReceiver.ref a)).1

/-- `func ScaleWithValueFunction(v Vertex, f float64)` — same body, the
argument is passed by value (a copy). -/
def ScaleWithValueFunction (σ : VStore) (v : Vertex) (f : ℝ) : VStore :=
  (scaleBody f σ (VReceiver.copy v)).1

/-- `func ScaleWithPointerFunction(v *Vertex, f float64)` — same body, the
argument is an address. -/
def ScaleWithPointerFunction (σ : VStore) (a : Nat) (f : ℝ) : VStore :=
  (scaleBody f σ (VReceiver.ref a)).1

/-- `type MyCustomFloat float64` with `func (f MyCustomFloat) Abs() float64`
from methods-introduction.go. -/
def MyCustomFloat.Abs (f : ℝ) : ℝ :=
  if f < 0 then -f else f

/-- The struct `Coordinate { X, Y float64 }` from methods-interfaces.go. -/
@[ext]
structure Coordinate where
  X : ℝ
  Y : ℝ

/-- A store of heap-allocated `Coordinate` cells. -/
abbrev CStore := Nat → Coordinate

/-- `func (v *Coordinate) Abs() float64` — pointer receiver, nil-tolerant.
The receiver is a possibly-nil pointer (`Option Nat`).  Result: the returned
float, the store after the call, and the lines printed.  On nil it prints
the sentinel and returns 0; otherwise it returns the norm.  The body contains
no assignment, so the store passes through unchanged in both branches. -/
def Coordinate.Abs (σ : CStore) (p : Option Nat) : ℝ × CStore × List String :=
  match p with
  | none => (0, σ, ["<nil>"])
  | some a => (Real.sqrt ((σ a).X * (σ a).X + (σ a).Y * (σ a).Y), σ, [])

/-- `func (v *Coordinate) Scale(f float64)` — pointer receiver, two
assignments in sequence on the pointed-to cell. -/
def Coordinate.Scale (σ : CStore) (a : Nat) (f : ℝ) : CStore :=
  let σ1 := Function.update σ a { σ a with X := (σ a).X * f }
  Function.update σ1 a { σ1 a with Y := (σ1 a).Y * f }

/-- `type MyFloat float64` with `func (f MyFloat) Abs() float64` from
methods-interfaces.go. -/
def MyFloat.Abs (f : ℝ) : ℝ :=
  if f < 0 then -f else f

/-- A concrete value held by an `Absoluteness` interface variable in the
demo: either a `MyFloat` or a `*Coordinate` (which may itself be nil). -/
inductive AbsolutenessVal where
  | myFloat (f : ℝ)
  | coordPtr (p : Option Nat)

/-- Calling `.Abs()` on an `Absoluteness` interface variable.  A nil
interface (`none`) holds no concrete type, so there is no method to dispatch
to: the call is a run-time fault, modelled by `none`.  A non-nil interface
dispatches to the concrete method, which returns a value and printed lines. -/
def callAbs (σ : CStore) : Option AbsolutenessVal → Option (ℝ × List String)
  | none => none
  | some (.myFloat f) => some (MyFloat.Abs f, [])
  | some (.coordPtr p) =>
      let r := Coordinate.Abs σ p
      some (r.1, r.2.2)

/-- A value held by the empty interface `interface{}` in the demo: the nil
interface, an `int`, or a `string`. -/
inductive GoAny where
  | nilIface
  | int (n : ℤ)
  | str (s : String)

/-- `func DescribeGeneric(i interface{})` — renders `(%v, %T)`: the held
value and the concrete type name (`(<nil>, <nil>)` for the nil interface). -/
def DescribeGeneric : GoAny → String
  | .nilIface => "(<nil>, <nil>)"
  | .int n => "(" ++ toString n ++ ", int)"
  | .str s => "(" ++ s ++ ", string)"

/-- The tail of `DemoImplementationMethodsAndInterface`: one variable `i` of
type `interface{}` is described, reassigned to `42`, described, reassigned
to `"hello"`, and described again. -/
def demoGenericPrints : List String :=
  let i0 : GoAny := GoAny.nilIface
  let i1 : GoAny := GoAny.int 42
  let i2 : GoAny := GoAny.str "hello"
  [DescribeGeneric i0, DescribeGeneric i1, DescribeGeneric i2]

/-- Helper: the pointer-receiver scale is a single store update by the
componentwise-scaled old cell value. -/
theorem scaleWithPointer_eq (σ : VStore) (a : Nat) (f : ℝ) :
    Vertex.ScaleWithPointer σ a f =
      Function.update σ a ⟨(σ a).X * f, (σ a).Y * f⟩ := by
  unfold Vertex.ScaleWithPointer scaleBody
  simp [VReceiver.read, VReceiver.write, Function.update_idem, Function.update_same]

/-- Helper: `Coordinate.Scale` likewise. -/
theorem coordinate_scale_eq (σ : CStore) (a : Nat) (f : ℝ) :
    Coordinate.Scale σ a f =
      Function.update σ a ⟨(σ a).X * f, (σ a).Y * f⟩ := by
  unfold Coordinate.Scale
  simp [Function.update_idem, Function.update_same]

/-- C1: for every coordinate pair (x, y), `Vertex.Absolute` returns
`sqrt(x*x + y*y)`, and `Coordinate.Abs` applied through a non-nil pointer to
a cell holding the same coordinates returns the same value. -/
theorem magnitude_eq_sqrt_and_receiver_kind_irrelevant (x y : ℝ) :
    Vertex.Absolute ⟨x, y⟩ = Real.sqrt (x * x + y * y) ∧
    ∀ (σ : CStore) (a : Nat), σ a = ⟨x, y⟩ →
      (Coordinate.Abs σ (some a)).1 = Vertex.Absolute ⟨x, y⟩ := by
  refine ⟨rfl, ?_⟩
  intro σ a h
  simp [Coordinate.Abs, Vertex.Absolute, h]

/-- Witness for C1 at (3, 4) with a concrete store. -/
theorem magnitude_eq_sqrt_witness :
    Vertex.Absolute ⟨3, 4⟩ = Real.sqrt (3 * 3 + 4 * 4) ∧
    (Coordinate.Abs (fun _ => ⟨3, 4⟩) (some 0)).1 = Vertex.Absolute ⟨3, 4⟩ :=
  ⟨(magnitude_eq_sqrt_and_receiver_kind_irrelevant 3 4).1,
   (magnitude_eq_sqrt_and_receiver_kind_irrelevant 3 4).2 (fun _ => ⟨3, 4⟩) 0 rfl⟩

/-- C2: on a nil receiver, `Coordinate.Abs` returns exactly zero, leaves the
store untouched, and prints the sentinel line instead of faulting (the model
is a total function: the nil branch returns normally). -/
theorem abs_nil_receiver_returns_zero (σ : CStore) :
    Coordinate.Abs σ none = (0, σ, ["<nil>"]) :=
  rfl

/-- C3: the value-receiver scaling variant, and its plain-function
counterpart, leave the caller's store — in particular the scaled variable —
completely unchanged: the body mutates only the private copy. -/
theorem scaleWithValue_leaves_caller_unchanged (σ : VStore) (a : Nat) (v : Vertex) (f : ℝ) :
    Vertex.ScaleWithValue σ a f = σ ∧ ScaleWithValueFunction σ v f = σ :=
  ⟨rfl, rfl⟩

/-- C4: the pointer-receiver scaling variants mutate the referenced cell in
place: afterwards its X is the old X times f and its Y is the old Y times f. -/
theorem scaleWithPointer_scales_in_place (σ : VStore) (τ : CStore) (a : Nat) (f : ℝ) :
    ((Vertex.ScaleWithPointer σ a f) a).X = (σ a).X * f ∧
    ((Vertex.ScaleWithPointer σ a f) a).Y = (σ a).Y * f ∧
    ((Coordinate.Scale τ a f) a).X = (τ a).X * f ∧
    ((Coordinate.Scale τ a f) a).Y = (τ a).Y * f := by
  rw [scaleWithPointer_eq, coordinate_scale_eq]
  simp [Function.update_same]

/-- C5: calling `Abs` through a wholly-nil interface value is a run-time
fault (no result is produced — there is no concrete type to dispatch to),
whereas calling it on a non-nil interface holding a typed-but-nil
`*Coordinate` returns normally with 0 and the sentinel print. -/
theorem nil_interface_dispatch_fatal (σ : CStore) :
    callAbs σ none = none ∧
    callAbs σ (some (AbsolutenessVal.coordPtr none)) = some (0, ["<nil>"]) :=
  ⟨rfl, rfl⟩

/-- C6: scaling by k and then by 1/k through the pointer receiver restores
the original store exactly (the real-number model makes the round-trip law
exact, which is within any floating-point tolerance). -/
theorem scale_roundtrip (σ : VStore) (a : Nat) (k : ℝ) (hk : k ≠ 0) :
    Vertex.ScaleWithPointer (Vertex.ScaleWithPointer σ a k) a (1 / k) = σ := by
  rw [scaleWithPointer_eq, scaleWithPointer_eq, Function.update_idem,
    Function.update_same]
  have hcell : (⟨(σ a).X * k * (1 / k), (σ a).Y * k * (1 / k)⟩ : Vertex) = σ a := by
    ext
    · show (σ a).X * k * (1 / k) = (σ a).X
      field_simp
    · show (σ a).Y * k * (1 / k) = (σ a).Y
      field_simp
  simp only [Function.update_same, hcell, Function.update_eq_self]

/-- Witness for C6: k = 2 on a concrete store. -/
theorem scale_roundtrip_witness :
    (2 : ℝ) ≠ 0 ∧
    Vertex.ScaleWithPointer (Vertex.ScaleWithPointer (fun _ => ⟨3, 4⟩) 0 2) 0 (1 / 2) =
      (fun _ => ⟨3, 4⟩) :=
  ⟨by norm_num, scale_roundtrip (fun _ => ⟨3, 4⟩) 0 2 (by norm_num)⟩

/-- C7: `MyFloat.Abs` returns -f for negative f and f otherwise; through an
`Absoluteness` interface holding `MyFloat (-sqrt 2)`, `Abs` returns `sqrt 2`. -/
theorem myFloat_abs_correct (f : ℝ) :
    (f < 0 → MyFloat.Abs f = -f) ∧
    (¬ f < 0 → MyFloat.Abs f = f) ∧
    ∀ σ : CStore,
      callAbs σ (some (AbsolutenessVal.myFloat (-Real.sqrt 2))) =
        some (Real.sqrt 2, []) := by
  refine ⟨fun h => if_pos h, fun h => if_neg h, fun σ => ?_⟩
  have h2 : (0 : ℝ) < Real.sqrt 2 := Real.sqrt_pos.mpr (by norm_num)
  have hneg : -Real.sqrt 2 < 0 := neg_lt_zero.mpr h2
  simp [callAbs, MyFloat.Abs, hneg]

/-- Witness for C7 at f = -1 and a concrete store. -/
theorem myFloat_abs_witness :
    ((-1 : ℝ) < 0 ∧ MyFloat.Abs (-1) = 1) ∧
    callAbs (fun _ => ⟨0, 0⟩) (some (AbsolutenessVal.myFloat (-Real.sqrt 2))) =
      some (Real.sqrt 2, []) := by
  refine ⟨⟨by norm_num, ?_⟩, (myFloat_abs_correct (-1)).2.2 (fun _ => ⟨0, 0⟩)⟩
  have h := (myFloat_abs_correct (-1)).1 (by norm_num)
  simpa using h

/-- C8: `DescribeGeneric` renders the integer 42 and then the string "hello"
each with the correct value and concrete type label, and the demo sequence
reusing one `interface\x7b\x7d` variable prints exactly these lines back to back. -/
theorem describeGeneric_heterogeneous_reuse :
    DescribeGeneric (GoAny.int 42) = "(42, int)" ∧
    DescribeGeneric (GoAny.str "hello") = "(hello, string)" ∧
    demoGenericPrints = ["(<nil>, <nil>)", "(42, int)", "(hello, string)"] :=
  ⟨rfl, rfl, rfl⟩

/-- C9: each method is extensionally equal to its plain-function
counterpart: `Absolute` against `AbsoluteFunction` on every vertex, and
`ScaleWithPointer` against `ScaleWithPointerFunction` on every store,
address and factor, producing identical final stores. -/
theorem methods_eq_functions :
    (∀ v : Vertex, v.Absolute = AbsoluteFunction v) ∧
    (∀ (σ : VStore) (a : Nat) (f : ℝ),
      Vertex.ScaleWithPointer σ a f = ScaleWithPointerFunction σ a f) :=
  ⟨fun _ => rfl, fun _ _ _ => rfl⟩

/-- C10: although `Coordinate.Abs` has a pointer receiver, on a non-nil
receiver it never modifies the store: the pointed-to cell — its X and Y —
is exactly what it was before the call. -/
theorem coordinate_abs_preserves_receiver (σ : CStore) (a : Nat) :
    (Coordinate.Abs σ (some a)).2.1 = σ ∧
    ((Coordinate.Abs σ (some a)).2.1 a).X = (σ a).X ∧
    ((Coordinate.Abs σ (some a)).2.1 a).Y = (σ a).Y :=
  ⟨rfl, rfl, rfl⟩
